import Mathlib

/-!
Verification of the 123STRM synchronizer (src/plugins/123STRM/123strm.py).

Strings are modelled as `List Char`.  Filesystem contents are modelled as
`List Nat` (byte lists).  Network interactions are made explicit: each
modelled operation returns, besides its result, the list of network calls
it performed.
-/

namespace Strm

/-- The reserved characters of `sanitize_filename`:
the regex character class in the source is r'[\\/:*?<>|\t"]'. -/
def reservedChars : List Char := ['\\', '/', ':', '*', '?', '<', '>', '|', '\t', '"']

/-- The (ASCII) whitespace characters stripped by Python str.strip(). -/
def isPyWhitespace (c : Char) : Bool :=
  c = ' ' || c = '\t' || c = '\n' || c = '\r' || c = '\x0b' || c = '\x0c'

/-- One character of the regex substitution: reserved characters become an
underscore, everything else is kept. -/
def replChar (c : Char) : Char :=
  if c ∈ reservedChars then '_' else c

/-- The regex substitution re.sub on the whole string. -/
def replaceReserved (s : List Char) : List Char :=
  s.map replChar

/-- Python str.strip(): drop whitespace from the front, then from the back. -/
def pyStrip (s : List Char) : List Char :=
  (s.dropWhile isPyWhitespace).rdropWhile isPyWhitespace

/-- `sanitize_filename` from the source: replace the reserved characters by
an underscore, strip surrounding whitespace, truncate to 200 characters. -/
def sanitize_filename (s : List Char) : List Char :=
  (pyStrip (replaceReserved s)).take 200

theorem replChar_idem (c : Char) : replChar (replChar c) = replChar c := by
  by_cases h : c ∈ reservedChars <;> simp [replChar, h]

theorem replChar_not_reserved (c : Char) : replChar c ∉ reservedChars := by
  by_cases h : c ∈ reservedChars
  · simp only [replChar, if_pos h]
    decide
  · simp [replChar, h]

theorem pyStrip_subset {s : List Char} : pyStrip s ⊆ s := by
  unfold pyStrip
  intro c hc
  have h1 : (s.dropWhile isPyWhitespace).rdropWhile isPyWhitespace <+:
      s.dropWhile isPyWhitespace := List.rdropWhile_prefix _ _
  have h2 : s.dropWhile isPyWhitespace <:+ s := List.dropWhile_suffix _
  exact h2.subset (h1.subset hc)

theorem sanitize_subset {s : List Char} : sanitize_filename s ⊆ replaceReserved s := by
  unfold sanitize_filename
  intro c hc
  exact pyStrip_subset ((List.take_prefix _ _).subset hc)

theorem mem_sanitize_not_reserved {s : List Char} {c : Char}
    (hc : c ∈ sanitize_filename s) : c ∉ reservedChars := by
  rcases List.mem_map.mp (sanitize_subset hc) with ⟨a, _, ha⟩
  exact ha ▸ replChar_not_reserved a

theorem sanitize_length_le (s : List Char) : (sanitize_filename s).length ≤ 200 := by
  unfold sanitize_filename
  rw [List.length_take]
  exact min_le_left _ _

theorem replaceReserved_sanitize (s : List Char) :
    replaceReserved (sanitize_filename s) = sanitize_filename s := by
  unfold replaceReserved
  rw [List.map_congr_left (g := id), List.map_id]
  intro c hc
  have h := mem_sanitize_not_reserved hc
  simp [replChar, h]

theorem dropWhile_eq_self_of_prefix {p : Char → Bool} {m l : List Char}
    (h : m <+: l.dropWhile p) : m.dropWhile p = m := by
  cases hm : m with
  | nil => simp
  | cons c t =>
    subst hm
    have hne : (c :: t : List Char) ≠ [] := by simp
    have hhead : (c :: t).head hne = (l.dropWhile p).head (by
      intro hnil
      rw [hnil] at h
      exact hne (List.prefix_nil.mp h)) := List.IsPrefix.head h hne
    have hc : p c = false := by
      have := List.head_dropWhile_not p l (by
        intro hnil
        rw [hnil] at h
        exact hne (List.prefix_nil.mp h))
      simpa [← hhead] using this
    simp [List.dropWhile_cons, hc]

theorem sanitize_prefix_dropWhile (s : List Char) :
    sanitize_filename s <+: (replaceReserved s).dropWhile isPyWhitespace := by
  unfold sanitize_filename pyStrip
  exact (List.take_prefix _ _).trans (List.rdropWhile_prefix _ _)

theorem dropWhile_sanitize (s : List Char) :
    (sanitize_filename s).dropWhile isPyWhitespace = sanitize_filename s :=
  dropWhile_eq_self_of_prefix (sanitize_prefix_dropWhile s)

theorem sanitize_sanitize (s : List Char) :
    sanitize_filename (sanitize_filename s)
      = (sanitize_filename s).rdropWhile isPyWhitespace := by
  have h1 : sanitize_filename (sanitize_filename s)
      = (pyStrip (replaceReserved (sanitize_filename s))).take 200 := rfl
  rw [h1, replaceReserved_sanitize]
  unfold pyStrip
  rw [dropWhile_sanitize]
  apply List.take_of_length_le
  calc ((sanitize_filename s).rdropWhile isPyWhitespace).length
      ≤ (sanitize_filename s).length := (List.rdropWhile_prefix _ _).length_le
    _ ≤ 200 := sanitize_length_le s

/-- A 201-character input whose sanitized form ends in a space: 199 letters,
a space, then a letter; truncation to 200 characters cuts the final letter
and exposes the space that str.strip() had kept as interior whitespace. -/
def sanitizeCex : List Char := List.replicate 199 'a' ++ [' ', 'b']

set_option maxRecDepth 20000

/-- Claim C2 (counterexample): the sanitizer is not a fixed point on its own
output: on `sanitizeCex` the second application strips the trailing space
that the 200-character truncation exposed. -/
theorem sanitize_not_fixed_point :
    sanitize_filename (sanitize_filename sanitizeCex)
      ≠ sanitize_filename sanitizeCex := by decide

/-- Claim C2 (amended): for every input string, the sanitizer output contains
none of the reserved characters and has length at most 200; applying the
sanitizer to its own output merely removes trailing whitespace exposed by the
200-character truncation (so it is the identity whenever the output does not
end in whitespace). -/
theorem sanitize_spec (s : List Char) :
    (∀ c ∈ sanitize_filename s, c ∉ reservedChars)
      ∧ (sanitize_filename s).length ≤ 200
      ∧ sanitize_filename (sanitize_filename s)
          = (sanitize_filename s).rdropWhile isPyWhitespace :=
  ⟨fun _ hc => mem_sanitize_not_reserved hc, sanitize_length_le s, sanitize_sanitize s⟩

/-! ## Resumable downloader (`download_file`)

One execution of the body of `download_file` is modelled by
`download_file_body`.  The body first calls `client.download_info` (URL
resolution, a network call), then checks the local file: a local file whose
length equals the declared size short-circuits with success; otherwise a
streamed GET is issued, with a Range header starting at the current local
length (and append mode) when a local file exists, and no Range header (and
fresh-write mode) when none does.  `received` models the body of the GET
response as a function of the Range header sent. -/

/-- Trace of one execution of the body of `download_file`. -/
structure DlResult where
  success : Bool
  urlResolutions : Nat
  getRequests : List (Option Nat)
  finalFile : Option (List Nat)
deriving Repr, DecidableEq

/-- The body of `download_file`: resolve the download URL, then either skip
(complete local file), resume (partial local file) or download fresh. -/
def download_file_body (size : Nat) (localFile : Option (List Nat))
    (received : Option Nat → List Nat) : DlResult :=
  match localFile with
  | some content =>
    if content.length = size then
      { success := true, urlResolutions := 1, getRequests := [], finalFile := some content }
    else
      { success := true, urlResolutions := 1, getRequests := [some content.length],
        finalFile := some (content ++ received (some content.length)) }
  | none =>
      { success := true, urlResolutions := 1, getRequests := [none],
        finalFile := some (received none) }

/-- Claim C1 (counterexample): with a complete local file (length 2, declared
size 2) the body of `download_file` still performs the URL-resolution network
call, because `client.download_info` is called before the local-file check. -/
theorem download_complete_still_resolves :
    ¬ (download_file_body 2 (some [7, 7]) (fun _ => [])).urlResolutions = 0 := by
  decide

/-- Claim C1 (amended): if a local file already exists whose byte-length
equals the declared remote size, `download_file` reports success, issues no
GET request, and leaves the file unchanged; however it still performs exactly
one URL-resolution call, and a repeated run over the unchanged file again
issues no GET (but again one URL resolution). -/
theorem download_complete_skips_get (size : Nat) (content : List Nat)
    (received rcv2 : Option Nat → List Nat) (h : content.length = size) :
    download_file_body size (some content) received
      = { success := true, urlResolutions := 1, getRequests := [],
          finalFile := some content }
    ∧ (download_file_body size (some content) rcv2).getRequests = []
    ∧ (download_file_body size (some content) rcv2).urlResolutions = 1 := by
  unfold download_file_body
  simp [h]

/-- Witness for `download_complete_skips_get` at size 2, file `[7, 7]`. -/
theorem download_complete_skips_get_witness :
    download_file_body 2 (some [7, 7]) (fun _ => [])
      = { success := true, urlResolutions := 1, getRequests := [],
          finalFile := some [7, 7] }
    ∧ (download_file_body 2 (some [7, 7]) (fun _ => [9])).getRequests = []
    ∧ (download_file_body 2 (some [7, 7]) (fun _ => [9])).urlResolutions = 1 :=
  download_complete_skips_get 2 [7, 7] (fun _ => []) (fun _ => [9]) (by decide)

/-- Claim C3: with a partial local file of length `l` (`0 < l`, `l ≠ size`),
`download_file` issues one GET whose Range header starts at `l` and appends
the received bytes; if the server honors the range (sends exactly the suffix
of the remote content from offset `l`, possible only when `l ≤ size`), the
final file length equals the declared size.  With no local file it issues one
full-body GET (no Range header) and writes the body fresh. -/
theorem download_resume_spec (size l : Nat) (content remote : List Nat)
    (received rcvFresh : Option Nat → List Nat)
    (hlen : content.length = l) (_hpos : 0 < l) (hne : l ≠ size)
    (hremote : remote.length = size)
    (hhonor : l ≤ size ∧ received (some l) = remote.drop l)
    (hfull : rcvFresh none = remote) :
    (download_file_body size (some content) received).getRequests = [some l]
    ∧ (download_file_body size (some content) received).finalFile
        = some (content ++ remote.drop l)
    ∧ Option.map List.length (download_file_body size (some content) received).finalFile
        = some size
    ∧ (download_file_body size none rcvFresh).getRequests = [none]
    ∧ (download_file_body size none rcvFresh).finalFile = some remote
    ∧ Option.map List.length (download_file_body size none rcvFresh).finalFile
        = some size := by
  have hns : ¬ content.length = size := by rw [hlen]; exact hne
  have h3 : l + (size - l) = size := Nat.add_sub_cancel' hhonor.1
  unfold download_file_body
  simp [hns, hne, hlen, hhonor.2, hfull, hremote, h3]

/-- Witness for `download_resume_spec`: size 3, local `[7]`, remote
`[7, 8, 9]`; the server honors the range `bytes=1-` by sending `[8, 9]`. -/
theorem download_resume_spec_witness :
    (download_file_body 3 (some [7])
        (fun o => if o = some 1 then [8, 9] else [])).getRequests = [some 1]
    ∧ (download_file_body 3 (some [7])
        (fun o => if o = some 1 then [8, 9] else [])).finalFile
        = some ([7] ++ List.drop 1 [7, 8, 9])
    ∧ Option.map List.length (download_file_body 3 (some [7])
        (fun o => if o = some 1 then [8, 9] else [])).finalFile = some 3
    ∧ (download_file_body 3 none (fun _ => [7, 8, 9])).getRequests = [none]
    ∧ (download_file_body 3 none (fun _ => [7, 8, 9])).finalFile = some [7, 8, 9]
    ∧ Option.map List.length
        (download_file_body 3 none (fun _ => [7, 8, 9])).finalFile = some 3 :=
  download_resume_spec 3 1 [7] [7, 8, 9] (fun o => if o = some 1 then [8, 9] else [])
    (fun _ => [7, 8, 9]) (by decide) (by decide) (by decide) (by decide)
    ⟨by decide, by decide⟩ (by decide)

/-! ## Retry decorator on `download_file`

The source decorates `download_file` with
tenacity retry(stop=stop_after_attempt(MAX_RETRIES),
wait=wait_exponential(multiplier=1, min=2, max=10), before_sleep=warning).
tenacity computes the sleep after the k-th failed attempt as
multiplier * exp_base ^ (attempt_number - 1) clamped into [min, max]
(tenacity 8.x wait.py), and stop_after_attempt(3) allows three attempts in
total before the failure is surfaced to the caller. -/

/-- tenacity wait_exponential with exp_base 2: the sleep chosen after
attempt number `k` (1-based), clamped into the closed interval from
`lo` to `hi`. -/
def wait_exponential (multiplier lo hi k : Nat) : Nat :=
  Nat.max (Nat.max 0 lo) (Nat.min (multiplier * 2 ^ (k - 1)) hi)

/-- MAX_RETRIES from the configuration block of the source. -/
def MAX_RETRIES : Nat := 3

/-- Trace of a retried call: number of attempts actually made, the sleeps
taken between consecutive attempts, the number of warnings logged (one
before each sleep), and the final outcome (`none` when every allowed
attempt raised and the failure is surfaced). -/
structure RetryTrace (α : Type) where
  attemptsMade : Nat
  sleeps : List Nat
  warnings : Nat
  result : Option α
deriving Repr

/-- The retry loop: `f k` is the outcome of attempt number `k` (`none` means
the attempt raised), `fuel` is the number of attempts still allowed. -/
def retryGo {α : Type} (wait : Nat → Nat) (f : Nat → Option α) :
    Nat → Nat → RetryTrace α
  | _, 0 => { attemptsMade := 0, sleeps := [], warnings := 0, result := none }
  | k, fuel + 1 =>
    match f k with
    | some a => { attemptsMade := 1, sleeps := [], warnings := 0, result := some a }
    | none =>
      if fuel = 0 then
        { attemptsMade := 1, sleeps := [], warnings := 0, result := none }
      else
        let rest := retryGo wait f (k + 1) fuel
        { attemptsMade := rest.attemptsMade + 1, sleeps := wait k :: rest.sleeps,
          warnings := rest.warnings + 1, result := rest.result }

/-- `download_file` as decorated in the source: up to `MAX_RETRIES` attempts
with the wait_exponential(multiplier=1, min=2, max=10) schedule. -/
def download_file_retry {α : Type} (f : Nat → Option α) : RetryTrace α :=
  retryGo (wait_exponential 1 2 10) f 1 MAX_RETRIES

/-- Claim C4 (counterexample): on a permanently failing download the two
sleeps between the three attempts are 2 s and 2 s — the configured schedule
(multiplier=1, min=2, max=10) yields 1 s and 2 s before clamping, both
clamped up to the 2 s minimum — so the delays are not strictly increasing. -/
theorem retry_sleeps_not_increasing :
    (download_file_retry (fun _ => (none : Option Unit))).sleeps = [2, 2]
    ∧ ¬ List.Chain' (fun a b => a < b)
        (download_file_retry (fun _ => (none : Option Unit))).sleeps := by
  constructor
  · rfl
  · intro h
    rw [show (download_file_retry (fun _ => (none : Option Unit))).sleeps
        = [2, 2] from rfl] at h
    simp [List.chain'_cons] at h

/-- Claim C4 (amended): when every attempt raises, the decorated
`download_file` makes exactly 3 attempts, sleeps twice between consecutive
attempts for 2 seconds each (non-decreasing delays, each within the
configured bounds of 2 and 10 seconds), logs one warning before each sleep,
and then surfaces the failure to the caller. -/
theorem retry_exhaustion {α : Type} (f : Nat → Option α)
    (hf : ∀ k, f k = none) :
    (download_file_retry f).attemptsMade = 3
    ∧ (download_file_retry f).sleeps = [2, 2]
    ∧ (∀ d ∈ (download_file_retry f).sleeps, 2 ≤ d ∧ d ≤ 10)
    ∧ (download_file_retry f).warnings = 2
    ∧ (download_file_retry f).result = none := by
  have h : download_file_retry f =
      { attemptsMade := 3, sleeps := [2, 2], warnings := 2, result := none } := by
    unfold download_file_retry MAX_RETRIES
    rw [retryGo, hf 1]
    simp only [Nat.succ_ne_zero, if_false, reduceIte]
    rw [retryGo, hf 2]
    simp only [Nat.succ_ne_zero, if_false, reduceIte]
    rw [retryGo, hf 3]
    simp [wait_exponential]
  rw [h]
  refine ⟨rfl, rfl, ?_, rfl, rfl⟩
  intro d hd
  simp at hd
  subst hd
  decide

/-- Witness for `retry_exhaustion` with the constantly failing attempt. -/
theorem retry_exhaustion_witness :
    (download_file_retry (fun _ => (none : Option Unit))).attemptsMade = 3
    ∧ (download_file_retry (fun _ => (none : Option Unit))).sleeps = [2, 2]
    ∧ (∀ d ∈ (download_file_retry (fun _ => (none : Option Unit))).sleeps,
        2 ≤ d ∧ d ≤ 10)
    ∧ (download_file_retry (fun _ => (none : Option Unit))).warnings = 2
    ∧ (download_file_retry (fun _ => (none : Option Unit))).result = none :=
  retry_exhaustion (fun _ => (none : Option Unit)) (fun _ => rfl)

/-! ## Per-item processing (`process_item`) and the walker (`generate_strm`)

Metadata dictionaries are modelled as association lists from key strings to
value strings; Python truthiness of a value is modelled as nonemptiness.
`process_item` is modelled as a pure function over an `ItemSpec` that bundles
the item fields and the outcomes of the external calls it makes; its network
and filesystem side effects are returned as an explicit effect list. -/

/-- VIDEO_EXTS from the configuration block of the source. -/
def VIDEO_EXTS : List (List Char) :=
  [".mp4".data, ".mkv".data, ".avi".data, ".mov".data, ".flv".data,
   ".ts".data, ".iso".data, ".rmvb".data, ".m2ts".data]

/-- SUBTITLE_EXTS from the configuration block of the source. -/
def SUBTITLE_EXTS : List (List Char) :=
  [".srt".data, ".ass".data, ".ssa".data, ".sub".data, ".txt".data,
   ".vtt".data, ".ttml".data, ".dfxp".data]

/-- Python str.lower() (ASCII case folding). -/
def pyLower (s : List Char) : List Char := s.map Char.toLower

/-- Python str.endswith with a tuple of suffixes. -/
def endsWithAny (s : List Char) (exts : List (List Char)) : Bool :=
  exts.any (fun e => e.isSuffixOf s)

/-- A metadata dictionary: an association list of key/value strings. -/
abbrev Metadata := List (List Char × List Char)

/-- Python dict.get: the value at a key, if present. -/
def mget (d : Metadata) (k : List Char) : Option (List Char) :=
  (d.find? (fun p => p.1 == k)).map Prod.snd

/-- Python `k in dict`. -/
def hasKey (d : Metadata) (k : List Char) : Bool := (mget d k).isSome

/-- Python `d.get(k1) or d.get(k2, "")`: the value at `k1` when present and
truthy (nonempty), otherwise the value at `k2` when present, otherwise the
empty string. -/
def pyGetOr (d : Metadata) (k1 k2 : List Char) : List Char :=
  match mget d k1 with
  | some v => if v = [] then (mget d k2).getD [] else v
  | none => (mget d k2).getD []

/-- Python `data.get("Size") or item["Size"]` (the fallback is the listing's
size field, rendered into the URL). -/
def sizeField (d : Metadata) (itemSize : Nat) : List Char :=
  match mget d "Size".data with
  | some v => if v = [] then (toString itemSize).data else v
  | none => (toString itemSize).data

/-- The required-field set checked by `process_item`. -/
def required_fields : List (List Char) :=
  ["Etag".data, "S3KeyFlag".data, "Size".data]

/-- The loop `for field in required_fields: if field.lower() not in data and
field not in data: ... return False` finds a missing field. -/
def missingRequired (d : Metadata) : Bool :=
  required_fields.any (fun f => !(hasKey d (pyLower f)) && !(hasKey d f))

/-- DIRECT_LINK_SERVICE_URL from the configuration block of the source. -/
def DIRECT_LINK_SERVICE_URL : List Char := "http://172.17.0.1:8123".data

/-- The single line written into a .strm pointer file. -/
def strmUrl (rawFileName sizeStr etag s3flag : List Char) : List Char :=
  let base := DIRECT_LINK_SERVICE_URL ++ "/".data ++ rawFileName
    ++ "|".data ++ sizeStr ++ "|".data ++ etag
  if s3flag = [] then base else base ++ "?s3keyflag=".data ++ s3flag

/-- os.path.splitext applied to a bare filename (no directory separator),
first component: cut at the last dot, unless every character before that dot
is itself a dot (then the name has no extension). -/
def splitextRoot (s : List Char) : List Char :=
  let dotIdx := s.length - 1 - (s.reverse.indexOf '.')
  if s.contains '.' && (s.take dotIdx).any (fun c => c != '.') then
    s.take dotIdx
  else s

/-- One observable side effect of `process_item`. -/
inductive ItemEffect where
  | metadataFetch
  | writeStrm (name content : List Char)
  | downloadCall (name : List Char)
deriving Repr, DecidableEq

/-- The outcome of `process_item`: the returned Python value (`none` models
Python None, the implicit fall-through return) and the effect list. -/
structure ItemResult where
  outcome : Option Bool
  effects : List ItemEffect
deriving Repr, DecidableEq

/-- One non-directory listing entry together with the outcomes of the
external calls `process_item` may make on it: whether the .strm target
already exists, the result of the `fs_info` metadata fetch (`Except.error`
models a raised exception), and whether `download_file` raises (its retries
exhausted). -/
structure ItemSpec where
  fileName : List Char
  itemSize : Nat
  strmExists : Bool
  fsInfo : Except Unit Metadata
  downloadRaises : Bool

/-- `process_item` from the source: route a video name (unless
SYNC_SUBTITLE_ONLY is set) to .strm emission with a presence-based skip, a
subtitle name to `download_file`, and anything else to the implicit
`return None`; every exception inside the body is caught and turned into
`False`. -/
def process_item (subtitleOnly debug : Bool) (it : ItemSpec) : ItemResult :=
  let lname := pyLower it.fileName
  if !subtitleOnly && endsWithAny lname VIDEO_EXTS then
    let strmName := sanitize_filename (splitextRoot it.fileName) ++ ".strm".data
    if !it.strmExists || debug then
      match it.fsInfo with
      | .error _ => { outcome := some false, effects := [.metadataFetch] }
      | .ok data =>
        if missingRequired data then
          { outcome := some false, effects := [.metadataFetch] }
        else
          let etag := pyGetOr data "Etag".data "etag".data
          let s3 := pyGetOr data "S3KeyFlag".data "s3keyflag".data
          let sizeStr := sizeField data it.itemSize
          { outcome := some true,
            effects := [.metadataFetch,
              .writeStrm strmName (strmUrl it.fileName sizeStr etag s3)] }
    else { outcome := some true, effects := [] }
  else if endsWithAny lname SUBTITLE_EXTS then
    let subName := sanitize_filename it.fileName
    if it.downloadRaises then
      { outcome := some false, effects := [.downloadCall subName] }
    else
      { outcome := some true, effects := [.downloadCall subName] }
  else { outcome := none, effects := [] }

/-- The per-item loop of `generate_strm` over the non-directory entries of
one listing: each entry yields its `process_item` outcome and whether the
walker paused for REQUEST_DELAY after it (it pauses exactly when the outcome
is truthy). -/
def walk_items (subtitleOnly debug : Bool) : List ItemSpec → List (Option Bool × Bool)
  | [] => []
  | it :: rest =>
    let r := process_item subtitleOnly debug it
    (r.outcome, r.outcome == some true) :: walk_items subtitleOnly debug rest

/-- `generate_strm` over one directory of non-directory entries: a raised
listing call is logged critical and re-raised (the error propagates);
otherwise every entry is processed in listing order. -/
def generate_strm_flat (subtitleOnly debug : Bool)
    (listing : Except Unit (List ItemSpec)) :
    Except Unit (List (Option Bool × Bool)) :=
  match listing with
  | .error e => .error e
  | .ok items => .ok (walk_items subtitleOnly debug items)

theorem process_item_video (subtitleOnly debug : Bool) (it : ItemSpec)
    (hso : subtitleOnly = false)
    (hv : endsWithAny (pyLower it.fileName) VIDEO_EXTS = true) :
    process_item subtitleOnly debug it =
      if !it.strmExists || debug then
        match it.fsInfo with
        | .error _ => { outcome := some false, effects := [.metadataFetch] }
        | .ok data =>
          if missingRequired data then
            { outcome := some false, effects := [.metadataFetch] }
          else
            { outcome := some true,
              effects := [.metadataFetch,
                .writeStrm (sanitize_filename (splitextRoot it.fileName) ++ ".strm".data)
                  (strmUrl it.fileName (sizeField data it.itemSize)
                    (pyGetOr data "Etag".data "etag".data)
                    (pyGetOr data "S3KeyFlag".data "s3keyflag".data))] }
      else { outcome := some true, effects := [] } := by
  subst hso
  unfold process_item
  simp [hv]

theorem process_item_video_err (debug : Bool) (it : ItemSpec)
    (hv : endsWithAny (pyLower it.fileName) VIDEO_EXTS = true)
    (hre : (!it.strmExists || debug) = true)
    (hfs : it.fsInfo = Except.error ()) :
    process_item false debug it
      = { outcome := some false, effects := [.metadataFetch] } := by
  have hp := process_item_video false debug it rfl hv
  rw [hre, hfs] at hp
  exact hp.trans rfl

theorem process_item_video_ok (debug : Bool) (it : ItemSpec) (data : Metadata)
    (hv : endsWithAny (pyLower it.fileName) VIDEO_EXTS = true)
    (hre : (!it.strmExists || debug) = true)
    (hfs : it.fsInfo = Except.ok data) :
    process_item false debug it =
      if missingRequired data then
        { outcome := some false, effects := [.metadataFetch] }
      else
        { outcome := some true,
          effects := [.metadataFetch,
            .writeStrm (sanitize_filename (splitextRoot it.fileName) ++ ".strm".data)
              (strmUrl it.fileName (sizeField data it.itemSize)
                (pyGetOr data "Etag".data "etag".data)
                (pyGetOr data "S3KeyFlag".data "s3keyflag".data))] } := by
  have hp := process_item_video false debug it rfl hv
  rw [hre, hfs] at hp
  exact hp.trans rfl

theorem process_item_video_skip (debug : Bool) (it : ItemSpec)
    (hv : endsWithAny (pyLower it.fileName) VIDEO_EXTS = true)
    (hre : (!it.strmExists || debug) = false) :
    process_item false debug it = { outcome := some true, effects := [] } := by
  have hp := process_item_video false debug it rfl hv
  rw [hre] at hp
  exact hp.trans rfl

theorem process_item_subtitle (subtitleOnly debug : Bool) (it : ItemSpec)
    (hcond : (!subtitleOnly && endsWithAny (pyLower it.fileName) VIDEO_EXTS) = false)
    (hs : endsWithAny (pyLower it.fileName) SUBTITLE_EXTS = true) :
    process_item subtitleOnly debug it =
      { outcome := some (!it.downloadRaises),
        effects := [.downloadCall (sanitize_filename it.fileName)] } := by
  cases hr : it.downloadRaises <;> simp [process_item, hcond, hs, hr]

theorem process_item_ignored (subtitleOnly debug : Bool) (it : ItemSpec)
    (hcond : (!subtitleOnly && endsWithAny (pyLower it.fileName) VIDEO_EXTS) = false)
    (hs : endsWithAny (pyLower it.fileName) SUBTITLE_EXTS = false) :
    process_item subtitleOnly debug it = { outcome := none, effects := [] } := by
  simp [process_item, hcond, hs]

theorem walk_items_length (subtitleOnly debug : Bool) (items : List ItemSpec) :
    (walk_items subtitleOnly debug items).length = items.length := by
  induction items with
  | nil => rfl
  | cons a t ih => simp [walk_items, ih]

theorem walk_items_cons (subtitleOnly debug : Bool) (it : ItemSpec)
    (rest : List ItemSpec) :
    walk_items subtitleOnly debug (it :: rest)
      = ((process_item subtitleOnly debug it).outcome,
          (process_item subtitleOnly debug it).outcome == some true)
        :: walk_items subtitleOnly debug rest := rfl

theorem pyGetOr_ne_nil_iff (d : Metadata) (k1 k2 : List Char) :
    pyGetOr d k1 k2 ≠ [] ↔
      (mget d k1).getD [] ≠ [] ∨ (mget d k2).getD [] ≠ [] := by
  unfold pyGetOr
  cases h : mget d k1 with
  | none => simp
  | some v =>
    by_cases hv : v = [] <;> simp [hv]

theorem exts_mutually_not_suffix :
    ∀ v ∈ VIDEO_EXTS, ∀ u ∈ SUBTITLE_EXTS, ¬ (v <:+ u) ∧ ¬ (u <:+ v) := by
  decide

theorem video_subtitle_disjoint (s : List Char) :
    ¬ (endsWithAny s VIDEO_EXTS = true ∧ endsWithAny s SUBTITLE_EXTS = true) := by
  rintro ⟨hv, hs⟩
  rw [endsWithAny, List.any_eq_true] at hv hs
  obtain ⟨v, hvm, hvs⟩ := hv
  obtain ⟨u, hum, hus⟩ := hs
  rw [List.isSuffixOf_iff_suffix] at hvs hus
  rcases List.suffix_or_suffix_of_suffix hvs hus with h | h
  · exact (exts_mutually_not_suffix v hvm u hum).1 h
  · exact (exts_mutually_not_suffix v hvm u hum).2 h

/-- Claim C5: when a pointer file is (re)generated, the single write is the
line DIRECT_LINK_SERVICE_URL/<rawFileName>|<size>|<etag>, with
?s3keyflag=<flag> appended exactly when the storage key flag is present and
nonempty in the metadata under either key casing; no download (media byte
transfer) occurs, and the written string contains no newline whenever its
interpolated components contain none. -/
theorem strm_content_spec (debug : Bool) (it : ItemSpec) (data : Metadata)
    (hv : endsWithAny (pyLower it.fileName) VIDEO_EXTS = true)
    (hre : (!it.strmExists || debug) = true)
    (hfs : it.fsInfo = Except.ok data)
    (hgood : missingRequired data = false) :
    (process_item false debug it).effects
      = [ItemEffect.metadataFetch,
         ItemEffect.writeStrm
           (sanitize_filename (splitextRoot it.fileName) ++ ".strm".data)
           (strmUrl it.fileName (sizeField data it.itemSize)
             (pyGetOr data "Etag".data "etag".data)
             (pyGetOr data "S3KeyFlag".data "s3keyflag".data))]
    ∧ (∀ raw sz etag s3, strmUrl raw sz etag s3
        = DIRECT_LINK_SERVICE_URL ++ "/".data ++ raw ++ "|".data ++ sz
            ++ "|".data ++ etag
            ++ (if s3 = [] then [] else "?s3keyflag=".data ++ s3))
    ∧ (pyGetOr data "S3KeyFlag".data "s3keyflag".data ≠ [] ↔
        (mget data "S3KeyFlag".data).getD [] ≠ []
          ∨ (mget data "s3keyflag".data).getD [] ≠ [])
    ∧ (∀ n, ItemEffect.downloadCall n ∉ (process_item false debug it).effects)
    ∧ ('\n' ∉ it.fileName → '\n' ∉ sizeField data it.itemSize →
        '\n' ∉ pyGetOr data "Etag".data "etag".data →
        '\n' ∉ pyGetOr data "S3KeyFlag".data "s3keyflag".data →
        '\n' ∉ strmUrl it.fileName (sizeField data it.itemSize)
          (pyGetOr data "Etag".data "etag".data)
          (pyGetOr data "S3KeyFlag".data "s3keyflag".data)) := by
  have hp := process_item_video false debug it rfl hv
  rw [hre, hfs] at hp
  simp only [if_true] at hp
  rw [if_neg (by simp [hgood])] at hp
  refine ⟨by rw [hp], ?_, pyGetOr_ne_nil_iff data _ _, ?_, ?_⟩
  · intro raw sz etag s3
    unfold strmUrl
    by_cases h : s3 = [] <;> simp [h]
  · intro n
    rw [hp]
    simp
  · intro h1 h2 h3 h4
    unfold strmUrl
    by_cases h : pyGetOr data "S3KeyFlag".data "s3keyflag".data = [] <;>
      simp [h, h1, h2, h3, h4] <;> decide

/-- Witness data: a complete metadata dictionary. -/
def dataGood : Metadata :=
  [("Etag".data, "abc".data), ("S3KeyFlag".data, "fl".data),
   ("Size".data, "1000".data)]

/-- Witness item: Movie.mkv with no pointer file on disk yet. -/
def itVid : ItemSpec :=
  { fileName := "Movie.mkv".data, itemSize := 1000, strmExists := false,
    fsInfo := Except.ok dataGood, downloadRaises := false }

/-- Witness for `strm_content_spec` on `itVid`. -/
theorem strm_content_spec_witness :
    (process_item false false itVid).effects
      = [ItemEffect.metadataFetch,
         ItemEffect.writeStrm
           (sanitize_filename (splitextRoot itVid.fileName) ++ ".strm".data)
           (strmUrl itVid.fileName (sizeField dataGood itVid.itemSize)
             (pyGetOr dataGood "Etag".data "etag".data)
             (pyGetOr dataGood "S3KeyFlag".data "s3keyflag".data))]
    ∧ (∀ raw sz etag s3, strmUrl raw sz etag s3
        = DIRECT_LINK_SERVICE_URL ++ "/".data ++ raw ++ "|".data ++ sz
            ++ "|".data ++ etag
            ++ (if s3 = [] then [] else "?s3keyflag=".data ++ s3))
    ∧ (pyGetOr dataGood "S3KeyFlag".data "s3keyflag".data ≠ [] ↔
        (mget dataGood "S3KeyFlag".data).getD [] ≠ []
          ∨ (mget dataGood "s3keyflag".data).getD [] ≠ [])
    ∧ (∀ n, ItemEffect.downloadCall n ∉ (process_item false false itVid).effects)
    ∧ ('\n' ∉ itVid.fileName → '\n' ∉ sizeField dataGood itVid.itemSize →
        '\n' ∉ pyGetOr dataGood "Etag".data "etag".data →
        '\n' ∉ pyGetOr dataGood "S3KeyFlag".data "s3keyflag".data →
        '\n' ∉ strmUrl itVid.fileName (sizeField dataGood itVid.itemSize)
          (pyGetOr dataGood "Etag".data "etag".data)
          (pyGetOr dataGood "S3KeyFlag".data "s3keyflag".data)) :=
  strm_content_spec false itVid dataGood (by decide) (by decide) rfl (by decide)

/-- Claim C6: if the derived pointer file already exists, `process_item`
without the force flag (DEBUG) performs no metadata fetch and no write and
reports success; with the force flag it re-fetches the metadata and rewrites
the pointer file. -/
theorem strm_exists_skip_spec (it : ItemSpec)
    (hv : endsWithAny (pyLower it.fileName) VIDEO_EXTS = true)
    (hex : it.strmExists = true) :
    process_item false false it = { outcome := some true, effects := [] }
    ∧ (∀ data, it.fsInfo = Except.ok data → missingRequired data = false →
        (process_item false true it).effects
          = [ItemEffect.metadataFetch,
             ItemEffect.writeStrm
               (sanitize_filename (splitextRoot it.fileName) ++ ".strm".data)
               (strmUrl it.fileName (sizeField data it.itemSize)
                 (pyGetOr data "Etag".data "etag".data)
                 (pyGetOr data "S3KeyFlag".data "s3keyflag".data))]
        ∧ (process_item false true it).outcome = some true) := by
  constructor
  · exact process_item_video_skip false it hv (by rw [hex]; rfl)
  · intro data hfs hgood
    have hp0 := process_item_video_ok true it data hv (by simp) hfs
    rw [hgood] at hp0
    have hp : process_item false true it
        = { outcome := some true,
            effects := [.metadataFetch,
              .writeStrm (sanitize_filename (splitextRoot it.fileName) ++ ".strm".data)
                (strmUrl it.fileName (sizeField data it.itemSize)
                  (pyGetOr data "Etag".data "etag".data)
                  (pyGetOr data "S3KeyFlag".data "s3keyflag".data))] } := by
      simp only [Bool.false_eq_true, if_false] at hp0
      exact hp0
    rw [hp]
    exact ⟨rfl, rfl⟩

/-- Witness item: Movie.mkv whose pointer file is already on disk. -/
def itVidExists : ItemSpec :=
  { fileName := "Movie.mkv".data, itemSize := 1000, strmExists := true,
    fsInfo := Except.ok dataGood, downloadRaises := false }

/-- Witness for `strm_exists_skip_spec` on `itVidExists`. -/
theorem strm_exists_skip_spec_witness :
    process_item false false itVidExists = { outcome := some true, effects := [] }
    ∧ (∀ data, itVidExists.fsInfo = Except.ok data → missingRequired data = false →
        (process_item false true itVidExists).effects
          = [ItemEffect.metadataFetch,
             ItemEffect.writeStrm
               (sanitize_filename (splitextRoot itVidExists.fileName) ++ ".strm".data)
               (strmUrl itVidExists.fileName (sizeField data itVidExists.itemSize)
                 (pyGetOr data "Etag".data "etag".data)
                 (pyGetOr data "S3KeyFlag".data "s3keyflag".data))]
        ∧ (process_item false true itVidExists).outcome = some true) :=
  strm_exists_skip_spec itVidExists (by decide) (by decide)

/-- Claim C7: when the fetched metadata lacks a required field (neither its
exact nor its lowercase key present), `process_item` writes no pointer file,
returns `False`, fetches the metadata exactly once (no retry), and the
walker still processes every remaining sibling. -/
theorem missing_field_spec (debug : Bool) (it : ItemSpec) (data : Metadata)
    (rest : List ItemSpec)
    (hv : endsWithAny (pyLower it.fileName) VIDEO_EXTS = true)
    (hre : (!it.strmExists || debug) = true)
    (hfs : it.fsInfo = Except.ok data)
    (hmiss : missingRequired data = true) :
    (process_item false debug it).outcome = some false
    ∧ (process_item false debug it).effects = [ItemEffect.metadataFetch]
    ∧ (∀ n c, ItemEffect.writeStrm n c ∉ (process_item false debug it).effects)
    ∧ walk_items false debug (it :: rest)
        = (some false, false) :: walk_items false debug rest
    ∧ (walk_items false debug rest).length = rest.length := by
  have hp0 := process_item_video_ok debug it data hv hre hfs
  rw [hmiss] at hp0
  have hp : process_item false debug it
      = { outcome := some false, effects := [ItemEffect.metadataFetch] } := by
    simp only [if_true] at hp0
    exact hp0
  refine ⟨by rw [hp], by rw [hp], ?_, ?_, walk_items_length false debug rest⟩
  · intro n c
    rw [hp]
    simp
  · rw [walk_items_cons, hp]
    rfl

/-- Witness metadata lacking the content-hash field. -/
def dataNoEtag : Metadata :=
  [("S3KeyFlag".data, "fl".data), ("Size".data, "1000".data)]

/-- Witness item: Movie.mkv whose metadata fetch omits Etag. -/
def itVidNoEtag : ItemSpec :=
  { fileName := "Movie.mkv".data, itemSize := 1000, strmExists := false,
    fsInfo := Except.ok dataNoEtag, downloadRaises := false }

/-- Witness sibling: Movie.srt, downloaded successfully. -/
def itSub : ItemSpec :=
  { fileName := "Movie.srt".data, itemSize := 50, strmExists := false,
    fsInfo := Except.ok dataGood, downloadRaises := false }

/-- Witness for `missing_field_spec`: Etag missing, sibling Movie.srt still
walked. -/
theorem missing_field_spec_witness :
    (process_item false false itVidNoEtag).outcome = some false
    ∧ (process_item false false itVidNoEtag).effects = [ItemEffect.metadataFetch]
    ∧ (∀ n c, ItemEffect.writeStrm n c ∉ (process_item false false itVidNoEtag).effects)
    ∧ walk_items false false (itVidNoEtag :: [itSub])
        = (some false, false) :: walk_items false false [itSub]
    ∧ (walk_items false false [itSub]).length = [itSub].length :=
  missing_field_spec false itVidNoEtag dataNoEtag [itSub] (by decide) (by decide)
    rfl (by decide)

/-- Claim C8: item-level failures (a raised metadata fetch while emitting a
pointer file, or a download whose retries are exhausted) are converted into
the boolean result `False` inside `process_item` so that the walker keeps a
result for every sibling, while a raised listing call makes `generate_strm`
itself propagate the error. -/
theorem failure_isolation_spec :
    (∀ debug it, endsWithAny (pyLower it.fileName) VIDEO_EXTS = true →
        (!it.strmExists || debug) = true → it.fsInfo = Except.error () →
        (process_item false debug it).outcome = some false)
    ∧ (∀ subtitleOnly debug it,
        (!subtitleOnly && endsWithAny (pyLower it.fileName) VIDEO_EXTS) = false →
        endsWithAny (pyLower it.fileName) SUBTITLE_EXTS = true →
        it.downloadRaises = true →
        (process_item subtitleOnly debug it).outcome = some false)
    ∧ (∀ subtitleOnly debug items,
        (walk_items subtitleOnly debug items).length = items.length)
    ∧ (∀ subtitleOnly debug,
        generate_strm_flat subtitleOnly debug (Except.error ()) = Except.error ()) := by
  refine ⟨?_, ?_, walk_items_length, fun _ _ => rfl⟩
  · intro debug it hv hre hfs
    rw [process_item_video_err debug it hv hre hfs]
  · intro subtitleOnly debug it hcond hs hdr
    rw [process_item_subtitle subtitleOnly debug it hcond hs, hdr]
    rfl

/-- Witness item: Movie.mkv whose metadata fetch raises. -/
def itVidErr : ItemSpec :=
  { fileName := "Movie.mkv".data, itemSize := 1000, strmExists := false,
    fsInfo := Except.error (), downloadRaises := false }

/-- Witness item: Movie.srt whose download exhausts its retries. -/
def itSubFail : ItemSpec :=
  { fileName := "Movie.srt".data, itemSize := 50, strmExists := false,
    fsInfo := Except.ok dataGood, downloadRaises := true }

/-- Witness for `failure_isolation_spec` on `itVidErr` and `itSubFail`. -/
theorem failure_isolation_spec_witness :
    (process_item false false itVidErr).outcome = some false
    ∧ (process_item false false itSubFail).outcome = some false
    ∧ (walk_items false false [itVidErr, itSubFail]).length = 2
    ∧ generate_strm_flat false false (Except.error ()) = Except.error () :=
  ⟨failure_isolation_spec.1 false itVidErr (by decide) (by decide) rfl,
   failure_isolation_spec.2.1 false false itSubFail (by decide) (by decide) (by decide),
   (failure_isolation_spec.2.2.1 false false [itVidErr, itSubFail]).trans rfl,
   failure_isolation_spec.2.2.2 false false⟩

/-- Claim C9: a non-directory name never matches both extension sets; with
the sidecar-only switch off, a video name is routed to the pointer-file
emitter (no download call, a boolean result); a subtitle name is routed to
exactly one download call; any other name produces no side effect; with the
sidecar-only switch set, a video name is skipped entirely (no side effect). -/
theorem classification_spec (subtitleOnly debug : Bool) (it : ItemSpec) :
    ¬ (endsWithAny (pyLower it.fileName) VIDEO_EXTS = true
        ∧ endsWithAny (pyLower it.fileName) SUBTITLE_EXTS = true)
    ∧ (subtitleOnly = false → endsWithAny (pyLower it.fileName) VIDEO_EXTS = true →
        (∀ n, ItemEffect.downloadCall n ∉ (process_item subtitleOnly debug it).effects)
        ∧ (process_item subtitleOnly debug it).outcome ≠ none)
    ∧ (endsWithAny (pyLower it.fileName) SUBTITLE_EXTS = true →
        (process_item subtitleOnly debug it).effects
          = [ItemEffect.downloadCall (sanitize_filename it.fileName)]
        ∧ (process_item subtitleOnly debug it).outcome ≠ none)
    ∧ (endsWithAny (pyLower it.fileName) VIDEO_EXTS = false →
        endsWithAny (pyLower it.fileName) SUBTITLE_EXTS = false →
        process_item subtitleOnly debug it = { outcome := none, effects := [] })
    ∧ (subtitleOnly = true → endsWithAny (pyLower it.fileName) VIDEO_EXTS = true →
        process_item subtitleOnly debug it = { outcome := none, effects := [] }) := by
  refine ⟨video_subtitle_disjoint _, ?_, ?_, ?_, ?_⟩
  · rintro rfl hv
    by_cases h1 : (!it.strmExists || debug) = true
    · cases hfs : it.fsInfo with
      | error e =>
        cases e
        rw [process_item_video_err debug it hv h1 hfs]
        exact ⟨fun n => by simp, by simp⟩
      | ok data =>
        rw [process_item_video_ok debug it data hv h1 hfs]
        by_cases h2 : missingRequired data = true
        · rw [if_pos h2]
          exact ⟨fun n => by simp, by simp⟩
        · rw [if_neg h2]
          exact ⟨fun n => by simp, by simp⟩
    · rw [process_item_video_skip debug it hv (by simpa using h1)]
      exact ⟨fun n => by simp, by simp⟩
  · intro hs
    have hv : endsWithAny (pyLower it.fileName) VIDEO_EXTS = false := by
      cases h : endsWithAny (pyLower it.fileName) VIDEO_EXTS with
      | false => rfl
      | true => exact absurd ⟨h, hs⟩ (video_subtitle_disjoint _)
    have hcond : (!subtitleOnly && endsWithAny (pyLower it.fileName) VIDEO_EXTS)
        = false := by simp [hv]
    rw [process_item_subtitle subtitleOnly debug it hcond hs]
    exact ⟨rfl, by simp⟩
  · intro hv hs
    cases subtitleOnly with
    | true => exact process_item_ignored true debug it (by simp) hs
    | false => exact process_item_ignored false debug it (by simp [hv]) hs
  · rintro rfl hv
    have hs : endsWithAny (pyLower it.fileName) SUBTITLE_EXTS = false := by
      cases h : endsWithAny (pyLower it.fileName) SUBTITLE_EXTS with
      | false => rfl
      | true => exact absurd ⟨hv, h⟩ (video_subtitle_disjoint _)
    exact process_item_ignored true debug it (by simp) hs

/-- Witness for `classification_spec` on the video item `itVid`. -/
theorem classification_spec_witness :
    (¬ (endsWithAny (pyLower itVid.fileName) VIDEO_EXTS = true
        ∧ endsWithAny (pyLower itVid.fileName) SUBTITLE_EXTS = true))
    ∧ (∀ n, ItemEffect.downloadCall n ∉ (process_item false false itVid).effects)
    ∧ (process_item false false itVid).outcome ≠ none
    ∧ (process_item false false itSub).effects
        = [ItemEffect.downloadCall (sanitize_filename itSub.fileName)]
    ∧ (process_item false false itSub).outcome ≠ none
    ∧ process_item true false itVid = { outcome := none, effects := [] } :=
  ⟨(classification_spec false false itVid).1,
   ((classification_spec false false itVid).2.1 rfl (by decide)).1,
   ((classification_spec false false itVid).2.1 rfl (by decide)).2,
   ((classification_spec false false itSub).2.2.1 (by decide)).1,
   ((classification_spec false false itSub).2.2.1 (by decide)).2,
   (classification_spec true false itVid).2.2.2.2 rfl (by decide)⟩

/-- Claim C10: an item matching neither extension set, and a video item under
the sidecar-only switch, produce no side effect and return Python None — an
outcome distinct from success True and failure False — and the walker skips
the REQUEST_DELAY pause after such an item. -/
theorem none_outcome_spec (subtitleOnly debug : Bool) (it : ItemSpec)
    (rest : List ItemSpec) :
    (endsWithAny (pyLower it.fileName) VIDEO_EXTS = false →
      endsWithAny (pyLower it.fileName) SUBTITLE_EXTS = false →
      process_item subtitleOnly debug it = { outcome := none, effects := [] }
      ∧ walk_items subtitleOnly debug (it :: rest)
          = (none, false) :: walk_items subtitleOnly debug rest)
    ∧ (subtitleOnly = true →
      endsWithAny (pyLower it.fileName) VIDEO_EXTS = true →
      process_item subtitleOnly debug it = { outcome := none, effects := [] }
      ∧ walk_items subtitleOnly debug (it :: rest)
          = (none, false) :: walk_items subtitleOnly debug rest)
    ∧ ((none : Option Bool) ≠ some true ∧ (none : Option Bool) ≠ some false) := by
  refine ⟨?_, ?_, by simp, by simp⟩
  · intro hv hs
    have hp := process_item_ignored subtitleOnly debug it (by simp [hv]) hs
    exact ⟨hp, by rw [walk_items_cons, hp]; rfl⟩
  · rintro rfl hv
    have hs : endsWithAny (pyLower it.fileName) SUBTITLE_EXTS = false := by
      cases h : endsWithAny (pyLower it.fileName) SUBTITLE_EXTS with
      | false => rfl
      | true => exact absurd ⟨hv, h⟩ (video_subtitle_disjoint _)
    have hp := process_item_ignored true debug it (by simp) hs
    exact ⟨hp, by rw [walk_items_cons, hp]; rfl⟩

/-- Witness item: a nfo file, matching neither extension set. -/
def itNfo : ItemSpec :=
  { fileName := "Movie.nfo".data, itemSize := 3, strmExists := false,
    fsInfo := Except.ok dataGood, downloadRaises := false }

/-- Witness for `none_outcome_spec`: Movie.nfo is ignored, and Movie.mkv is
ignored under the sidecar-only switch; neither causes a pause. -/
theorem none_outcome_spec_witness :
    (process_item false false itNfo = { outcome := none, effects := [] }
      ∧ walk_items false false (itNfo :: [itSub])
          = (none, false) :: walk_items false false [itSub])
    ∧ (process_item true false itVid = { outcome := none, effects := [] }
      ∧ walk_items true false (itVid :: [itSub])
          = (none, false) :: walk_items true false [itSub]) :=
  ⟨(none_outcome_spec false false itNfo [itSub]).1 (by decide) (by decide),
   (none_outcome_spec true false itVid [itSub]).2.1 rfl (by decide)⟩

end Strm
